import Mathlib

/-!
Verification of the acquisitions auth backend.

Shallow embedding of the authentication service (`src/services/auth.service.js`),
the sign-up controller mapping and cookie utility (as quoted in `ARCHITECTURE.md`),
the `/health` route and the sign-in route stub, over explicit user-store state.

JavaScript objects are modelled as association lists of (key, value), where a
later occurrence of a key shadows an earlier one, exactly as in a JS spread
`{...a, ...b}`.  The bcrypt primitives are modelled as oracle parameters
(`bhash`, `bcompare`) returning `none` when the primitive itself errors.
-/

namespace Acq

/-- A JavaScript value, as far as this code needs: strings, numbers, booleans. -/
inductive JsValue where
  | str (s : String)
  | num (n : Nat)
  | bool (b : Bool)
deriving DecidableEq, Repr

/-- A JavaScript object: an association list of field name to value. -/
abbrev JsObj := List (String × JsValue)

/-- Field lookup in a JS object.  A later occurrence of a key shadows an
earlier one, matching the semantics of the spread `{...a, ...b}`. -/
def objGet (o : JsObj) (k : String) : Option JsValue :=
  (o.reverse.find? (fun kv => kv.1 == k)).map (fun kv => kv.2)

/-- A thrown JavaScript error: either `new Error(msg)` or a database driver
error carrying a code (Postgres unique violation is code 23505). -/
inductive JsError where
  | error (msg : String)
  | dbError (code : String) (msg : String)
deriving DecidableEq, Repr

/-- `e.message` of a thrown error. -/
def jsMessage : JsError → String
  | .error m => m
  | .dbError _ m => m

/-- Outcome of an async service call: resolved value or thrown error. -/
inductive Res (α : Type) where
  | ok (a : α)
  | err (e : JsError)
deriving DecidableEq, Repr

/-- A row of the `users` table (`src/models/user.model.js`): id, name, email,
password hash, role, created_at, updated_at. -/
structure User where
  id : Nat
  name : String
  email : String
  password : String
  role : String
  created_at : Nat
  updated_at : Nat
deriving DecidableEq, Repr

/-- The user store: the rows of the `users` table. -/
abbrev Store := List User

/-- hashPassword: `bcrypt.hash(password, 10)`; a primitive error is caught
and rethrown as `new Error('Hashing Error')`.  `bhash plaintext cost` is the
bcrypt oracle, `none` when the primitive errors. -/
def hashPassword (bhash : String → Nat → Option String) (password : String) :
    Res String :=
  match bhash password 10 with
  | some h => .ok h
  | none => .err (.error "Hashing Error")

/-- comparePassword: `bcrypt.compare(password, hashedPassword)`; a primitive
error is caught and rethrown as `new Error('Password Comparison Error')`. -/
def comparePassword (bcompare : String → String → Option Bool)
    (password hashedPassword : String) : Res Bool :=
  match bcompare password hashedPassword with
  | some b => .ok b
  | none => .err (.error "Password Comparison Error")

/-- The projection built by the insert's `.returning({id, name, email, role,
createdAt: users.created_at})` in `createUser`. -/
def returningProj (u : User) : JsObj :=
  [("id", .num u.id), ("name", .str u.name), ("email", .str u.email),
   ("role", .str u.role), ("createdAt", .num u.created_at)]

/-- Message of the Postgres unique-constraint violation on `users.email`. -/
def uniqueViolationMsg : String :=
  "duplicate key value violates unique constraint \x22users_email_unique\x22"

/-- The insert step `db.insert(users).values({...}).returning({...})`: the store enforces the
unique constraint on email; on success the new row (serial id `nextId`,
timestamps defaulted to `now`) is appended and the projection returned. -/
def dbInsertUsers (store : Store) (nextId now : Nat)
    (name email passwordHash role : String) : Res (Store × JsObj) :=
  if store.any (fun u => u.email == email) then
    .err (.dbError "23505" uniqueViolationMsg)
  else
    let row : User :=
      { id := nextId, name := name, email := email, password := passwordHash,
        role := role, created_at := now, updated_at := now }
    .ok (store ++ [row], returningProj row)

/-- Observable effect of a `createUser` run: a call into the password hasher,
or an insert attempt against the store. -/
inductive RegEvent where
  | hashCall (password : String)
  | insertCall (name email passwordHash role : String)
deriving DecidableEq, Repr

/-- createUser: pre-check by email (select ... limit 1), hash the password,
insert with `.returning`.  The `catch` block logs and rethrows the error
unchanged.  `store0` is the store seen by the pre-check select and `store1`
the store seen by the insert — they differ exactly when a concurrent
registration commits between the two awaits.  Returns the outcome, the final
store, and the trace of hash/insert effects. -/
def createUser (bhash : String → Nat → Option String) (store0 store1 : Store)
    (nextId now : Nat) (name email password : String)
    (role : String := "user") : Res JsObj × Store × List RegEvent :=
  let existingUser := (store0.filter (fun u => u.email == email)).take 1
  if existingUser.length > 0 then
    (.err (.error "User with this email already exists"), store1, [])
  else
    match hashPassword bhash password with
    | .err e => (.err e, store1, [.hashCall password])
    | .ok passwordHash =>
      match dbInsertUsers store1 nextId now name email passwordHash role with
      | .err e =>
        (.err e, store1,
         [.hashCall password, .insertCall name email passwordHash role])
      | .ok (store2, newUser) =>
        (.ok newUser, store2,
         [.hashCall password, .insertCall name email passwordHash role])

/-- The success projection of `authenticateUser`:
`{id, name, email, role, createdAt: user.created_at}`. -/
def authProj (u : User) : JsObj :=
  [("id", .num u.id), ("name", .str u.name), ("email", .str u.email),
   ("role", .str u.role), ("createdAt", .num u.created_at)]

/-- Observable effect of an `authenticateUser` run: a call into the password
comparison primitive. -/
inductive AuthEvent where
  | compareCall (password hashedPassword : String)
deriving DecidableEq, Repr

/-- authenticateUser: select by email (limit 1, `const [user] = ...`); if no
row, throw `Invalid email or password`; else compare the password; `false`
throws the same `Invalid email or password`; the `catch` block logs and
rethrows unchanged.  Also returns the trace of comparison calls. -/
def authenticateUser (bcompare : String → String → Option Bool) (store : Store)
    (email password : String) : Res JsObj × List AuthEvent :=
  match (store.filter (fun u => u.email == email)).take 1 with
  | [] => (.err (.error "Invalid email or password"), [])
  | user :: _ =>
    match comparePassword bcompare password user.password with
    | .err e => (.err e, [.compareCall password user.password])
    | .ok false =>
      (.err (.error "Invalid email or password"),
       [.compareCall password user.password])
    | .ok true => (.ok (authProj user), [.compareCall password user.password])

/-- The sign-up controller's `catch` clause (`auth.controller.js` as quoted in
`ARCHITECTURE.md`): only the pre-check message maps to 409; every other
thrown error goes to `next(e)`, i.e. the generic 500 error handler. -/
def signUpCatchStatus (e : JsError) : Nat :=
  if jsMessage e = "User with this email already exists" then 409 else 500

/-- Body of an HTTP response: `res.send(string)` or a JSON object. -/
inductive HttpBody where
  | text (s : String)
  | json (o : JsObj)
deriving DecidableEq, Repr

/-- An HTTP response: status, headers, body. -/
structure HttpResponse where
  status : Nat
  headers : List (String × String)
  body : HttpBody
deriving DecidableEq, Repr

/-- The `GET /health` handler (`app.js`):
`res.status(200).send({status: 'OK', timestamp: ..., uptime: ...})`. -/
def healthHandler (timestamp : String) (uptime : Nat) : HttpResponse :=
  { status := 200, headers := [],
    body := .json
      [("status", .str "OK"), ("timestamp", .str timestamp),
       ("uptime", .num uptime)] }

/-- The `POST /api/v1/auth/sign-in` handler (`src/routes/auth.routes.js`): a
stub `res.send('POST /api/auth/sign-in response')`, ignoring the request. -/
def signInHandler (_reqBody : JsObj) : HttpResponse :=
  { status := 200, headers := [],
    body := .text "POST /api/auth/sign-in response" }

/-- The defaults `cookies.getOptions()` (cookies.js as quoted in ARCHITECTURE.md). -/
def getOptions (isProduction : Bool) : JsObj :=
  [("httpOnly", .bool true), ("secure", .bool isProduction),
   ("sameSite", .str "strict"), ("maxAge", .num (15 * 60 * 1000))]

/-- The options object passed to `res.cookie` by `cookies.set`:
`{...cookies.getOptions(), ...options}` — the caller's options are spread
after the defaults. -/
def cookieSetOptions (isProduction : Bool) (options : JsObj) : JsObj :=
  getOptions isProduction ++ options

/-- A concrete bcrypt-hash oracle used for witnesses: always succeeds. -/
def bhashOk : String → Nat → Option String :=
  fun pw cost => some ("$2b$" ++ toString cost ++ "$" ++ pw)

/-- A concrete bcrypt-hash oracle used for witnesses: the primitive errors. -/
def bhashErr : String → Nat → Option String := fun _ _ => none

/-- A concrete stored user row used in witnesses and counterexamples. -/
def alice : User :=
  { id := 1, name := "Alice", email := "alice@x.com",
    password := "$2b$10$secret1", role := "user",
    created_at := 40, updated_at := 41 }

end Acq

namespace Acq

/-- A concrete bcrypt-compare oracle used in witnesses: compares for string
equality and never errors. -/
def bcompareEq : String → String → Option Bool := fun p h => some (p == h)

/-- A concrete bcrypt-compare oracle used in counterexamples: the primitive
itself errors on every input. -/
def bcompareErr : String → String → Option Bool := fun _ _ => none

/-- Modelled from the spec: the full attribute record of a User (id, display
name, email, password hash, role, creation timestamp, last-update timestamp),
as a JS object.  Used only to state what the spec's PublicUser projection
would be. -/
def userAllFields (u : User) : JsObj :=
  [("id", .num u.id), ("name", .str u.name), ("email", .str u.email),
   ("password", .str u.password), ("role", .str u.role),
   ("createdAt", .num u.created_at), ("updatedAt", .num u.updated_at)]

/-- Modelled from the spec: a PublicUser projection, a User with exactly the
password attribute stripped. -/
def specPublicUser (u : User) : JsObj :=
  (userAllFields u).filter (fun kv => !(kv.1 == "password"))

/-- A concrete freshly inserted row used in witnesses and counterexamples. -/
def bobRow : User :=
  { id := 1, name := "Bob", email := "bob@x.com", password := "$2b$10$pw",
    role := "user", created_at := 50, updated_at := 50 }

end Acq

namespace Acq

/-- C5: hashPassword consults the bcrypt primitive exactly at cost factor 10:
its successful value is precisely the primitive's cost-10 output, a primitive
error yields the failure `Hashing Error` (a HashingFailure) and never a
resolved value — in particular never the plaintext — and the result depends
only on the primitive's behaviour at cost 10. -/
theorem hashPassword_cost10_failure_no_plaintext
    (bhash : String → Nat → Option String) (password : String) :
    (∀ h, bhash password 10 = some h → hashPassword bhash password = .ok h)
    ∧ (∀ v, hashPassword bhash password = .ok v → bhash password 10 = some v)
    ∧ (bhash password 10 = none →
        hashPassword bhash password = .err (.error "Hashing Error")
        ∧ ∀ v, hashPassword bhash password ≠ .ok v)
    ∧ (∀ bhash2 : String → Nat → Option String,
        bhash2 password 10 = bhash password 10 →
        hashPassword bhash2 password = hashPassword bhash password) := by
  refine ⟨fun h hh => ?_, fun v hv => ?_, fun hn => ?_, fun bhash2 he => ?_⟩
  · simp [hashPassword, hh]
  · unfold hashPassword at hv
    cases hh : bhash password 10 with
    | some h => rw [hh] at hv; cases hv; rfl
    | none => rw [hh] at hv; cases hv
  · constructor
    · simp [hashPassword, hn]
    · intro v hv
      simp [hashPassword, hn] at hv
  · unfold hashPassword
    rw [he]

/-- Witness for C5 at concrete inputs: a succeeding primitive and an erroring
primitive. -/
theorem hashPassword_cost10_failure_no_plaintext_witness :
    hashPassword bhashOk "pw" = .ok "$2b$10$pw"
    ∧ hashPassword bhashErr "pw" = .err (.error "Hashing Error") :=
  ⟨(hashPassword_cost10_failure_no_plaintext bhashOk "pw").1 "$2b$10$pw" rfl,
   ((hashPassword_cost10_failure_no_plaintext bhashErr "pw").2.2.1 rfl).1⟩

/-- C2: authenticate on an email absent from the store and authenticate on a
present email whose stored hash fails the password comparison both fail with
the very same error — kind `Error` and message `Invalid email or password` —
so the two cases are indistinguishable from the result. -/
theorem authenticateUser_no_email_oracle
    (bcompare : String → String → Option Bool) (s1 s2 : Store)
    (e1 p1 e2 p2 : String) (u : User) (rest : Store)
    (h1 : s1.filter (fun v => v.email == e1) = [])
    (h2 : s2.filter (fun v => v.email == e2) = u :: rest)
    (hw : bcompare p2 u.password = some false) :
    (authenticateUser bcompare s1 e1 p1).1
      = .err (.error "Invalid email or password")
    ∧ (authenticateUser bcompare s2 e2 p2).1
      = .err (.error "Invalid email or password")
    ∧ (authenticateUser bcompare s1 e1 p1).1
      = (authenticateUser bcompare s2 e2 p2).1 := by
  refine ⟨?_, ?_, ?_⟩ <;>
    simp [authenticateUser, comparePassword, h1, h2, hw]

/-- Witness for C2: a non-existent email against a one-user store, and the
existing email with a wrong password. -/
theorem authenticateUser_no_email_oracle_witness :
    (authenticateUser bcompareEq [alice] "bob@x.com" "pw").1
      = .err (.error "Invalid email or password")
    ∧ (authenticateUser bcompareEq [alice] "alice@x.com" "wrong").1
      = .err (.error "Invalid email or password")
    ∧ (authenticateUser bcompareEq [alice] "bob@x.com" "pw").1
      = (authenticateUser bcompareEq [alice] "alice@x.com" "wrong").1 :=
  authenticateUser_no_email_oracle bcompareEq [alice] [alice]
    "bob@x.com" "pw" "alice@x.com" "wrong" alice [] rfl rfl rfl

/-- C9: when the email is absent from the store, authenticate fails with the
credentials error and its trace of password-comparison calls is empty: no
dummy compare is performed on the absent-email path. -/
theorem authenticateUser_absent_email_no_compare
    (bcompare : String → String → Option Bool) (store : Store)
    (email password : String)
    (h : store.filter (fun u => u.email == email) = []) :
    authenticateUser bcompare store email password
      = (.err (.error "Invalid email or password"), []) := by
  simp [authenticateUser, h]

/-- Witness for C9: an email absent from a one-user store. -/
theorem authenticateUser_absent_email_no_compare_witness :
    authenticateUser bcompareEq [alice] "bob@x.com" "pw"
      = (.err (.error "Invalid email or password"), []) :=
  authenticateUser_absent_email_no_compare bcompareEq [alice] "bob@x.com" "pw"
    rfl

/-- C10: when the pre-check finds an existing user for the email, createUser
fails with the duplicate-email error, the store is returned unchanged, and
the effect trace is empty: no password hashing and no insert happened. -/
theorem createUser_precheck_duplicate_atomic
    (bhash : String → Nat → Option String) (store : Store) (nextId now : Nat)
    (name email password role : String) (u : User) (rest : Store)
    (h : store.filter (fun v => v.email == email) = u :: rest) :
    createUser bhash store store nextId now name email password role
      = (.err (.error "User with this email already exists"), store, []) := by
  simp [createUser, h]

/-- Witness for C10: registering the already-stored email. -/
theorem createUser_precheck_duplicate_atomic_witness :
    createUser bhashOk [alice] [alice] 2 100 "Alice2" "alice@x.com" "pw2"
      "user"
      = (.err (.error "User with this email already exists"), [alice], []) :=
  createUser_precheck_duplicate_atomic bhashOk [alice] 2 100 "Alice2"
    "alice@x.com" "pw2" "user" alice [] rfl

end Acq

namespace Acq

/-- C3 (amended): when the password-comparison primitive itself errors during
authenticate on an existing email, the failure surfaced is the rethrown
comparison error, message Password Comparison Error — a failure distinct from
the InvalidCredentials error, not indistinguishable from a wrong password. -/
theorem authenticateUser_compare_error_distinct
    (bcompare : String → String → Option Bool) (store : Store)
    (email password : String) (u : User) (rest : Store)
    (h : store.filter (fun v => v.email == email) = u :: rest)
    (hc : bcompare password u.password = none) :
    (authenticateUser bcompare store email password).1
      = .err (.error "Password Comparison Error") := by
  simp [authenticateUser, comparePassword, h, hc]

/-- Witness for C3 (amended) at an erroring comparison primitive. -/
theorem authenticateUser_compare_error_distinct_witness :
    (authenticateUser bcompareErr [alice] "alice@x.com" "pw").1
      = .err (.error "Password Comparison Error") :=
  authenticateUser_compare_error_distinct bcompareErr [alice] "alice@x.com"
    "pw" alice [] rfl rfl

/-- Counterexample to C3 as stated: on an erroring comparison primitive the
authenticate failure is Password Comparison Error, which differs from the
Invalid email or password failure produced by a wrong password, so the two
failure modes are distinguishable by the caller. -/
theorem authenticateUser_compare_error_cex :
    (authenticateUser bcompareErr [alice] "alice@x.com" "pw").1
      = .err (.error "Password Comparison Error")
    ∧ (authenticateUser bcompareErr [alice] "alice@x.com" "pw").1
      ≠ .err (.error "Invalid email or password")
    ∧ (authenticateUser bcompareEq [alice] "alice@x.com" "wrong").1
      = .err (.error "Invalid email or password") := by
  decide

/-- C1: with an empty store at pre-check time and a concurrently inserted row
with the same email at insert time, createUser fails with the rethrown
unique-constraint driver error, not with the duplicate-email error of the
pre-check, and the controller catch maps it to the generic 500, not 409. -/
theorem createUser_unique_violation_not_duplicate :
    (createUser bhashOk [] [alice] 2 100 "Alice2" "alice@x.com" "pw2"
        "user").1
      = .err (.dbError "23505" uniqueViolationMsg)
    ∧ (createUser bhashOk [] [alice] 2 100 "Alice2" "alice@x.com" "pw2"
        "user").1
      ≠ .err (.error "User with this email already exists")
    ∧ signUpCatchStatus (.dbError "23505" uniqueViolationMsg) = 500
    ∧ signUpCatchStatus (.error "User with this email already exists")
      = 409 := by
  decide

/-- C4 (amended): every successful createUser returns exactly the insert's
returning projection — fields id, name, email, role, createdAt, in that
order — with neither a password field nor an updatedAt field. -/
theorem createUser_success_projection
    (bhash : String → Nat → Option String) (store0 store1 : Store)
    (nextId now : Nat) (name email password role : String) (proj : JsObj)
    (st : Store) (ev : List RegEvent)
    (h : createUser bhash store0 store1 nextId now name email password role
      = (.ok proj, st, ev)) :
    proj.map Prod.fst = ["id", "name", "email", "role", "createdAt"]
    ∧ objGet proj "password" = none
    ∧ objGet proj "updatedAt" = none := by
  rcases hpre : (store0.filter (fun u => u.email == email)).take 1 with - | ⟨v, vs⟩
  case cons => simp [createUser, hpre] at h
  case nil =>
    cases hh : hashPassword bhash password with
    | err e => simp [createUser, hpre, hh] at h
    | ok passwordHash =>
      cases hins : dbInsertUsers store1 nextId now name email passwordHash
          role with
      | err e => simp [createUser, hpre, hh, hins] at h
      | ok p =>
        obtain ⟨st2, proj2⟩ := p
        have hx : ∃ u : User, proj2 = returningProj u := by
          unfold dbInsertUsers at hins
          split at hins
          · simp at hins
          · simp only [Res.ok.injEq, Prod.mk.injEq] at hins
            exact ⟨_, hins.2.symm⟩
        simp only [createUser, hpre, hh, hins, List.length_nil,
          gt_iff_lt, lt_self_iff_false, if_false, Prod.mk.injEq,
          Res.ok.injEq] at h
        obtain ⟨h1, -, -⟩ := h
        obtain ⟨u, hu⟩ := hx
        subst h1
        subst hu
        exact ⟨rfl, rfl, rfl⟩

/-- Witness for C4 (amended): a concrete successful registration. -/
theorem createUser_success_projection_witness :
    (returningProj bobRow).map Prod.fst
      = ["id", "name", "email", "role", "createdAt"]
    ∧ objGet (returningProj bobRow) "password" = none
    ∧ objGet (returningProj bobRow) "updatedAt" = none :=
  createUser_success_projection bhashOk [] [] 1 50 "Bob" "bob@x.com" "pw"
    "user" (returningProj bobRow) [bobRow]
    [.hashCall "pw", .insertCall "Bob" "bob@x.com" "$2b$10$pw" "user"]
    (by decide)

/-- Counterexample to C4 as stated: a successful registration returns the
five-field returning projection, which is not the created row with exactly
the password stripped — the last-update timestamp is an attribute of the row
yet absent from the returned value. -/
theorem createUser_projection_cex :
    (createUser bhashOk [] [] 1 50 "Bob" "bob@x.com" "pw" "user").1
      = .ok (returningProj bobRow)
    ∧ returningProj bobRow ≠ specPublicUser bobRow
    ∧ objGet (userAllFields bobRow) "updatedAt" = some (.num 50)
    ∧ objGet (returningProj bobRow) "updatedAt" = none := by
  decide

/-- C6 (amended): the options object written by cookies.set has
httpOnly = true whenever the caller overrides carry no httpOnly key; the
overrides are spread after the defaults, so an explicit override wins. -/
theorem cookieSetOptions_httpOnly_default (isProduction : Bool)
    (options : JsObj) (h : objGet options "httpOnly" = none) :
    objGet (cookieSetOptions isProduction options) "httpOnly"
      = some (.bool true) := by
  unfold objGet at h ⊢
  unfold cookieSetOptions
  rw [List.reverse_append, List.find?_append]
  cases hf : options.reverse.find? (fun kv => kv.1 == "httpOnly") with
  | some kv => rw [hf] at h; simp at h
  | none => rfl

/-- Witness for C6 (amended): overrides that do not mention httpOnly. -/
theorem cookieSetOptions_httpOnly_default_witness :
    objGet (cookieSetOptions true [("sameSite", .str "lax")]) "httpOnly"
      = some (.bool true) :=
  cookieSetOptions_httpOnly_default true [("sameSite", .str "lax")] rfl

/-- Counterexample to C6 as stated: a caller override of httpOnly = false is
spread after the defaults and disables httpOnly on the written cookie. -/
theorem cookieSetOptions_httpOnly_cex :
    objGet (cookieSetOptions true [("httpOnly", .bool false)]) "httpOnly"
      = some (.bool false)
    ∧ objGet (cookieSetOptions true [("httpOnly", .bool false)]) "httpOnly"
      ≠ some (.bool true) := by
  decide

/-- C7 (amended): every GET /health response has status 200 and a JSON body
whose fields are exactly status, timestamp and uptime — the uptime field is
named uptime, not uptimeSeconds. -/
theorem healthHandler_status_and_fields (ts : String) (up : Nat) :
    (healthHandler ts up).status = 200
    ∧ ∃ o : JsObj, (healthHandler ts up).body = .json o
        ∧ o.map Prod.fst = ["status", "timestamp", "uptime"]
        ∧ objGet o "uptimeSeconds" = none :=
  ⟨rfl, _, rfl, rfl, rfl⟩

/-- Counterexample to C7 as stated: the concrete /health response carries an
uptime field and no uptimeSeconds field, so its fields are not exactly
status, timestamp, uptimeSeconds. -/
theorem healthHandler_fields_cex :
    healthHandler "t" 0
      = { status := 200, headers := [],
          body := .json
            [("status", .str "OK"), ("timestamp", .str "t"),
             ("uptime", .num 0)] }
    ∧ objGet
        [("status", JsValue.str "OK"), ("timestamp", .str "t"),
         ("uptime", .num 0)] "uptimeSeconds" = none
    ∧ [("status", JsValue.str "OK"), ("timestamp", .str "t"),
       ("uptime", .num 0)].map Prod.fst
      ≠ ["status", "timestamp", "uptimeSeconds"] := by
  decide

/-- C8 (amended): the sign-in route is an unimplemented stub — for every
request body it responds 200 with the plain-text body
POST /api/auth/sign-in response, sets no headers (hence no Set-Cookie), and
never returns 400, 401 or a JSON body. -/
theorem signInHandler_stub (b : JsObj) :
    (signInHandler b).status = 200
    ∧ (signInHandler b).headers = []
    ∧ (signInHandler b).body = .text "POST /api/auth/sign-in response" :=
  ⟨rfl, rfl, rfl⟩

/-- Counterexample to C8 as stated: a sign-in request with invalid
credentials is answered 200 with a plain-text body and no Set-Cookie header,
not 401. -/
theorem signInHandler_stub_cex :
    (signInHandler
        [("email", .str "alice@x.com"), ("password", .str "bad")]).status
      = 200
    ∧ (signInHandler
        [("email", .str "alice@x.com"), ("password", .str "bad")]).status
      ≠ 401
    ∧ (signInHandler
        [("email", .str "alice@x.com"), ("password", .str "bad")]).headers
      = []
    ∧ (signInHandler
        [("email", .str "alice@x.com"), ("password", .str "bad")]).body
      = .text "POST /api/auth/sign-in response" := by
  decide

end Acq
